import Mathlib

/-!
Shallow embedding of the runtime core of the mosaic digital clock
(src/clock/src/main.rs together with the digit table and draw entry
points of src/clocklib/src/lib.rs).

Machine integers of the source (u8 fields of the RTC DateTime, u8 state
positions, usize brightness index) are modelled as Nat; wherever the
source performs u8 arithmetic whose wrap could matter, the result is
reduced mod 256 explicitly.  Fallible operations are modelled with
Option.  The refresh signal (embassy Signal) is a single-slot latch,
modelled as an Option that a raise overwrites and a wait consumes.
-/

/-- Calendar time as carried by the pcf8563 RTC crate: all fields are u8,
modelled as Nat.  Field order follows the Rust struct. -/
structure DateTime where
  year : Nat
  month : Nat
  weekday : Nat
  day : Nat
  hours : Nat
  minutes : Nat
  seconds : Nat
deriving DecidableEq

/-- UI mode, enum State in main.rs: Idle, or SettingTime with a u8 field
position (0 = minutes, 1 = hours). -/
inductive State where
  | Idle : State
  | SettingTime : Nat → State
deriving DecidableEq

/-- enum ButtonPress in main.rs. -/
inductive ButtonPress where
  | Short : ButtonPress
  | Long : ButtonPress
deriving DecidableEq

/-- enum Event in main.rs: a press tagged with its source button. -/
inductive Event where
  | SetButton : ButtonPress → Event
  | AdjustButton : ButtonPress → Event
deriving DecidableEq

/-- struct BlinkData in main.rs: position is usize, frame is u8. -/
structure BlinkData where
  position : Nat
  frame : Nat
deriving DecidableEq

/-- enum ScreenRefresh in main.rs. -/
inductive ScreenRefresh where
  | TimeChanged : ScreenRefresh
  | Blink : BlinkData → ScreenRefresh
  | Normal : ScreenRefresh
deriving DecidableEq

/-- The shared mutable state of main.rs gathered into one record:
CURRENT_STATE, CURRENT_TIME, CURRENT_BRIGHTNESS, the content of the
persistent PCF8563 clock behind the rtc mutex, and the latched value of
SCREEN_REFRESH_SIGNAL (none when the latch is empty). -/
structure Sys where
  state : State
  time : DateTime
  brightness : Nat
  rtc : DateTime
  signal : Option ScreenRefresh
deriving DecidableEq

/-- const fn default_datetime, main.rs lines 366-376. -/
def default_datetime : DateTime :=
  { year := 0, month := 1, weekday := 0, day := 1,
    hours := 0, minutes := 0, seconds := 0 }

/-- Raising a value on SCREEN_REFRESH_SIGNAL: the embassy Signal is a
single-slot latch, so a new value overwrites any unconsumed one. -/
def signal_raise (r : ScreenRefresh) (_l : Option ScreenRefresh) :
    Option ScreenRefresh :=
  some r

/-- async fn to_state, main.rs lines 233-239: store the new UI mode. -/
def to_state (new_state : State) (s : Sys) : Sys :=
  { s with state := new_state }

/-- async fn adjust_brightness, main.rs lines 227-231.  The usize
increment cannot wrap: the stored index is always below 6. -/
def adjust_brightness (s : Sys) : Sys :=
  { s with brightness := (s.brightness + 1) % 6,
           signal := signal_raise ScreenRefresh.Normal s.signal }

/-- The edited DateTime computed inside advance_time, main.rs lines
204-220: start from the value freshly read from the RTC, overwrite
month, weekday and year with the defaults, then bump the field selected
by position (u8 additions reduced mod 256 before the source's mod). -/
def edited_datetime (position : Nat) (current : DateTime) : DateTime :=
  let current := { current with month := default_datetime.month,
                                weekday := default_datetime.weekday,
                                year := default_datetime.year }
  if position = 0 then
    { current with minutes := (current.minutes + 1) % 256 % 60, seconds := 0 }
  else if position = 1 then
    { current with hours := (current.hours + 1) % 256 % 24 }
  else
    current

/-- async fn advance_time, main.rs lines 202-225: read the RTC, edit the
selected field, write the result back to the RTC and to CURRENT_TIME,
and raise a TimeChanged refresh. -/
def advance_time (position : Nat) (s : Sys) : Sys :=
  let current := edited_datetime position s.rtc
  { s with rtc := current, time := current,
           signal := signal_raise ScreenRefresh.TimeChanged s.signal }

/-- async fn on_event, main.rs lines 169-200: the dispatcher's state
machine over (event, current mode).  Unlisted combinations are no-ops. -/
def on_event (event : Event) (s : Sys) : Sys :=
  match event, s.state with
  | Event.SetButton ButtonPress.Long, State.Idle =>
      to_state (State.SettingTime 0) s
  | Event.SetButton ButtonPress.Long, State.SettingTime _ =>
      to_state State.Idle s
  | Event.SetButton ButtonPress.Short, State.SettingTime digit =>
      let next_digit := (digit + 1) % 256 % 3
      if next_digit = 2 then
        to_state State.Idle
          { s with signal := signal_raise ScreenRefresh.Normal s.signal }
      else
        to_state (State.SettingTime next_digit) s
  | Event.AdjustButton ButtonPress.Short, State.SettingTime digit =>
      advance_time digit s
  | Event.AdjustButton ButtonPress.Short, State.Idle =>
      adjust_brightness s
  | _, _ => s

/-- One iteration of async fn sync_time, main.rs lines 92-106: read the
persistent clock and overwrite CURRENT_TIME with it. -/
def sync_time_step (s : Sys) : Sys :=
  { s with time := s.rtc }

/-- The body of one tick of async fn run_time, main.rs lines 314-341:
cascading second/minute/hour increments, day bump on hour overflow,
no further calendar rollover.  Each u8 increment is reduced mod 256. -/
def run_time_tick (t0 : DateTime) : DateTime :=
  let t1 := { t0 with seconds := (t0.seconds + 1) % 256 }
  let t2 := if 60 ≤ t1.seconds then
              { t1 with seconds := 0, minutes := (t1.minutes + 1) % 256 }
            else t1
  let t3 := if 60 ≤ t2.minutes then
              { t2 with minutes := 0, hours := (t2.hours + 1) % 256 }
            else t2
  if 24 ≤ t3.hours then
    { t3 with hours := 0, day := (t3.day + 1) % 256 }
  else t3

/-- run_time's tick applied to the shared state. -/
def run_time_step (s : Sys) : Sys :=
  { s with time := run_time_tick s.time }

/-- One iteration of async fn blink_task, main.rs lines 242-258: in
SettingTime raise a Blink refresh and alternate the frame; in Idle reset
the frame.  Returns the updated state and the next blink frame. -/
def blink_task_step (s : Sys) (blink_frame : Nat) : Sys × Nat :=
  match s.state with
  | State.SettingTime digit =>
      let req := ScreenRefresh.Blink { position := digit, frame := blink_frame }
      ({ s with signal := signal_raise req s.signal }, (blink_frame + 1) % 2)
  | State.Idle => (s, 0)

/-- The wait at the end of each screen_update iteration, main.rs lines
75-87: consume the latched refresh value if any (the 20 s fallback
timeout fires when none arrives), updating the remembered blink state;
the latch is left empty. -/
def screen_wait (l : Option ScreenRefresh) (blink : Option BlinkData) :
    Option BlinkData × Option ScreenRefresh :=
  match l with
  | some (ScreenRefresh.Blink bd) => (some bd, none)
  | some ScreenRefresh.TimeChanged => (blink, none)
  | some ScreenRefresh.Normal => (none, none)
  | none => (none, none)

/-- const BRIGHTNESS_MAP, main.rs line 382. -/
def BRIGHTNESS_MAP : List Nat := [0x05, 0x10, 0x20, 0x40, 0x60, 0x90]

/-- The per-digit intensity chosen by the render pass of screen_update,
main.rs lines 57-70: the match on (blink.frame, blink.position, i)
selects the fixed highlight intensity 0x02 for digits 2-3 when
frame = 0 and position = 0, and for digits 0-1 when frame = 0 and
position = 1; every other case keeps the normal brightness. -/
def digit_color (blink : Option BlinkData) (brightness : Nat) (i : Nat) :
    Nat :=
  match blink with
  | none => brightness
  | some b =>
      if b.frame = 0 ∧ b.position = 0 ∧ 2 ≤ i ∧ i ≤ 3 then 0x02
      else if b.frame = 0 ∧ b.position = 1 ∧ i ≤ 1 then 0x02
      else brightness

/-- The four digit values computed by screen_update, main.rs lines
50-55. -/
def screen_digits (t : DateTime) : List Nat :=
  [t.hours / 10, t.hours % 10, t.minutes / 10, t.minutes % 10]

/-- const DIGITS of clocklib, lib.rs lines 76-107: the 6-byte segment
mask of each decimal digit. -/
def DIGITS : List (List Nat) :=
  [[0x2f, 0x49, 0x69, 0x29, 0x49, 0xf],
   [0xc7, 0x30, 0x6, 0xc6, 0x30, 0x6],
   [0xf, 0x41, 0x6e, 0x27, 0x8, 0xf],
   [0xf, 0x41, 0x6e, 0xe, 0x41, 0xf],
   [0x29, 0x49, 0x6f, 0xe, 0x41, 0x8],
   [0x2f, 0x8, 0x67, 0xe, 0x41, 0xf],
   [0x2f, 0x8, 0x67, 0x2f, 0x49, 0xf],
   [0xf, 0x41, 0x4c, 0xc6, 0x30, 0x6],
   [0x2f, 0x49, 0x6f, 0x2f, 0x49, 0xf],
   [0x2f, 0x49, 0x6f, 0xe, 0x41, 0xf]]

/-- draw_symbol of clocklib, lib.rs lines 179-200, up to its segment
loop: the assert demands a tile index below 4, and the DIGITS table
lookup demands symbol_id below 10; on success the digit mask drives the
segment loop. -/
def draw_symbol (sub_display : Nat) (symbol_id : Nat) :
    Option (List Nat) :=
  if sub_display < 4 then DIGITS[symbol_id]? else none

/-- The render pass of screen_update, main.rs lines 57-73: draw_symbol
on tiles 0-3 with the four computed digits (the loop over the fixed
four-element digit array, unrolled); none models a failed assert or an
out-of-bounds digit lookup aborting the pass. -/
def screen_render (t : DateTime) : Option (List (List Nat)) := do
  let d0 ← draw_symbol 0 (t.hours / 10)
  let d1 ← draw_symbol 1 (t.hours % 10)
  let d2 ← draw_symbol 2 (t.minutes / 10)
  let d3 ← draw_symbol 3 (t.minutes % 10)
  pure [d0, d1, d2, d3]

/-- Classification of one confirmed press by button1_task/button2_task,
main.rs lines 261-302, with real time abstracted to the number of
milliseconds the button stays held after the press is confirmed: select
(wait_for_high, 3 s timer) resolves to whichever completes first, and on
a tie the release branch wins because it is polled first. -/
def classify_press (hold_ms : Nat) : ButtonPress :=
  if hold_ms ≤ 3000 then ButtonPress.Short else ButtonPress.Long

/-- The button task loop over a sequence of confirmed presses, each
given by its hold duration: one iteration handles one press and emits
one event; in the Long branch the task waits for the release before
looping, so the remainder of a long hold produces no further event. -/
def button_task_events : List Nat → List ButtonPress
  | [] => []
  | hold :: rest => classify_press hold :: button_task_events rest

/-- The initial shared state spawned by main, main.rs lines 378-386:
Idle mode, CURRENT_TIME at default_datetime, brightness index 3, empty
refresh latch; the persistent clock starts with whatever it holds. -/
def init_sys (rtc0 : DateTime) : Sys :=
  { state := State.Idle, time := default_datetime, brightness := 3,
    rtc := rtc0, signal := none }

/-- Folding a list of dispatched events through on_event: the only
writer of CURRENT_STATE is the dispatcher. -/
def run (evs : List Event) (s : Sys) : Sys :=
  evs.foldl (fun acc e => on_event e acc) s

/-- The time-of-day invariant of the spec data model. -/
def validTime (t : DateTime) : Prop :=
  t.hours < 24 ∧ t.minutes < 60 ∧ t.seconds < 60

/-- The stored UI mode is Idle, SettingTime 0 or SettingTime 1. -/
def modeOK (st : State) : Prop :=
  st = State.Idle ∨ st = State.SettingTime 0 ∨ st = State.SettingTime 1

/-! ## Helper lemmas -/

theorem on_event_preserves_modeOK (e : Event) (s : Sys)
    (h : modeOK s.state) : modeOK (on_event e s).state := by
  rcases s with ⟨st, t, b, r, sig⟩
  rcases h with h | h | h <;> subst h <;>
    rcases e with p | p <;> rcases p <;>
      simp [on_event, to_state, advance_time, adjust_brightness, modeOK]

theorem run_preserves_modeOK (evs : List Event) (s : Sys)
    (h : modeOK s.state) : modeOK (run evs s).state := by
  induction evs generalizing s with
  | nil => simpa [run] using h
  | cons e rest ih =>
      simpa [run] using ih (on_event e s) (on_event_preserves_modeOK e s h)

theorem run_cons (e : Event) (l : List Event) (s : Sys) :
    run (e :: l) s = run l (on_event e s) := rfl

/-! ## Claims -/

/-- C2: the stored UI mode is never SettingTime 2: a Set-Short event in
SettingTime 0 moves the mode to SettingTime 1, a Set-Short event in
SettingTime 1 raises a Normal refresh and returns the mode directly to
Idle, and every state reachable from startup through dispatched events
has mode Idle, SettingTime 0 or SettingTime 1. -/
theorem c2_mode_never_settingtime_two (rtc0 : DateTime) (evs : List Event)
    (s : Sys) :
    modeOK (run evs (init_sys rtc0)).state
    ∧ (s.state = State.SettingTime 0 →
        (on_event (Event.SetButton ButtonPress.Short) s).state
          = State.SettingTime 1)
    ∧ (s.state = State.SettingTime 1 →
        (on_event (Event.SetButton ButtonPress.Short) s).state = State.Idle
        ∧ (on_event (Event.SetButton ButtonPress.Short) s).signal
            = some ScreenRefresh.Normal) := by
  refine ⟨run_preserves_modeOK _ _ (by simp [init_sys, modeOK]), ?_, ?_⟩
  · intro h
    simp [on_event, h, to_state]
  · intro h
    simp [on_event, h, to_state, signal_raise]

theorem c2_mode_never_settingtime_two_witness :
    (on_event (Event.SetButton ButtonPress.Short)
        ⟨State.SettingTime 0, default_datetime, 3, default_datetime, none⟩).state
      = State.SettingTime 1
    ∧ (on_event (Event.SetButton ButtonPress.Short)
        ⟨State.SettingTime 1, default_datetime, 3, default_datetime, none⟩).state
      = State.Idle :=
  ⟨(c2_mode_never_settingtime_two default_datetime [] _).2.1 rfl,
   ((c2_mode_never_settingtime_two default_datetime [] _).2.2 rfl).1⟩

/-- C3 as stated is false on the code: a Short-press Set event while the
mode is Idle is an unlisted combination in on_event, so even the first
one is a complete no-op and never transitions to SettingTime 0. -/
theorem c3_counterexample :
    on_event (Event.SetButton ButtonPress.Short) (init_sys default_datetime)
      = init_sys default_datetime
    ∧ (on_event (Event.SetButton ButtonPress.Short)
        (init_sys default_datetime)).state ≠ State.SettingTime 0 := by
  decide

/-- C3 amended: for every sequence of Short-press Set events delivered
while the mode is Idle, every one of them, the first included, is a
no-op: the whole shared state (the mode in particular) is unchanged, and
none of them transitions the mode to SettingTime 0. -/
theorem c3_set_short_idle_noop (s : Sys) (h : s.state = State.Idle) :
    on_event (Event.SetButton ButtonPress.Short) s = s
    ∧ ∀ n, run (List.replicate n (Event.SetButton ButtonPress.Short)) s = s := by
  have h1 : on_event (Event.SetButton ButtonPress.Short) s = s := by
    simp [on_event, h]
  refine ⟨h1, ?_⟩
  intro n
  induction n with
  | zero => simp [run]
  | succ k ih => rw [List.replicate_succ, run_cons, h1]; exact ih

theorem c3_set_short_idle_noop_witness :
    on_event (Event.SetButton ButtonPress.Short) (init_sys default_datetime)
      = init_sys default_datetime
    ∧ run (List.replicate 2 (Event.SetButton ButtonPress.Short))
        (init_sys default_datetime) = init_sys default_datetime :=
  ⟨(c3_set_short_idle_noop (init_sys default_datetime) rfl).1,
   (c3_set_short_idle_noop (init_sys default_datetime) rfl).2 2⟩

/-- C1: an Adjust-Short event dispatched in SettingTime 0 increments the
minutes by 1 mod 60 and zeroes the seconds; in SettingTime 1 it
increments the hours by 1 mod 24 and leaves minutes and seconds
unchanged; in both cases the new time is written through to the
persistent clock, a TimeChanged refresh is raised, and the mode stays
SettingTime d. -/
theorem c1_adjust_short_edit (s : Sys) (d : Nat)
    (hst : s.state = State.SettingTime d)
    (hm : s.rtc.minutes < 60) (hh : s.rtc.hours < 24) :
    (d = 0 →
      (on_event (Event.AdjustButton ButtonPress.Short) s).time.minutes
        = (s.rtc.minutes + 1) % 60
      ∧ (on_event (Event.AdjustButton ButtonPress.Short) s).time.seconds = 0
      ∧ (on_event (Event.AdjustButton ButtonPress.Short) s).time.hours
        = s.rtc.hours)
    ∧ (d = 1 →
      (on_event (Event.AdjustButton ButtonPress.Short) s).time.hours
        = (s.rtc.hours + 1) % 24
      ∧ (on_event (Event.AdjustButton ButtonPress.Short) s).time.minutes
        = s.rtc.minutes
      ∧ (on_event (Event.AdjustButton ButtonPress.Short) s).time.seconds
        = s.rtc.seconds)
    ∧ (on_event (Event.AdjustButton ButtonPress.Short) s).rtc
        = (on_event (Event.AdjustButton ButtonPress.Short) s).time
    ∧ (on_event (Event.AdjustButton ButtonPress.Short) s).signal
        = some ScreenRefresh.TimeChanged
    ∧ (on_event (Event.AdjustButton ButtonPress.Short) s).state
        = State.SettingTime d := by
  have he : on_event (Event.AdjustButton ButtonPress.Short) s
      = advance_time d s := by
    simp [on_event, hst]
  rw [he]
  rcases s with ⟨st, t, b, r, sig⟩
  rcases r with ⟨ry, rmo, rw, rd, rh, rm, rs⟩
  simp only [Sys.rtc] at hm hh ⊢
  refine ⟨?_, ?_, ?_, ?_, ?_⟩
  · rintro rfl
    refine ⟨?_, ?_, ?_⟩ <;>
      simp [advance_time, edited_datetime, default_datetime] <;> omega
  · rintro rfl
    refine ⟨?_, ?_, ?_⟩ <;>
      simp [advance_time, edited_datetime, default_datetime] <;> omega
  · simp [advance_time]
  · simp [advance_time, signal_raise]
  · simp only [Sys.state] at hst
    simp [advance_time, hst]

theorem c1_adjust_short_edit_witness :
    ((on_event (Event.AdjustButton ButtonPress.Short)
        ⟨State.SettingTime 0, default_datetime, 3,
          ⟨0, 1, 0, 5, 13, 59, 30⟩, none⟩).time.minutes = (59 + 1) % 60
      ∧ (on_event (Event.AdjustButton ButtonPress.Short)
        ⟨State.SettingTime 0, default_datetime, 3,
          ⟨0, 1, 0, 5, 13, 59, 30⟩, none⟩).time.seconds = 0
      ∧ (on_event (Event.AdjustButton ButtonPress.Short)
        ⟨State.SettingTime 0, default_datetime, 3,
          ⟨0, 1, 0, 5, 13, 59, 30⟩, none⟩).time.hours = 13) :=
  (c1_adjust_short_edit
    ⟨State.SettingTime 0, default_datetime, 3, ⟨0, 1, 0, 5, 13, 59, 30⟩, none⟩
    0 rfl (by decide) (by decide)).1 rfl

/-- C4 as stated is false on the code: the Dispatcher's handling of an
Adjust-Short time edit (advance_time) locks the persistent-clock handle
itself, reads it and writes the edited time back, so at a concrete state
the persistent clock changes outside the RTC Sync Task. -/
theorem c4_counterexample :
    (on_event (Event.AdjustButton ButtonPress.Short)
        ⟨State.SettingTime 0, default_datetime, 3,
          ⟨0, 1, 0, 5, 13, 30, 45⟩, none⟩).rtc
      ≠ (⟨0, 1, 0, 5, 13, 30, 45⟩ : DateTime) := by
  decide

/-- C4 amended: the persistent clock is read by the RTC Sync Task, and
both read and written by the Dispatcher's Adjust-Short edit in
SettingTime mode (advance_time); every other operation of the core (the
ticker, the brightness adjustment, the blink task, and every dispatch
other than an Adjust-Short in SettingTime) leaves the persistent clock
unchanged. -/
theorem c4_rtc_access_paths (s : Sys) (e : Event) (f : Nat) :
    (sync_time_step s).rtc = s.rtc
    ∧ (sync_time_step s).time = s.rtc
    ∧ (run_time_step s).rtc = s.rtc
    ∧ (adjust_brightness s).rtc = s.rtc
    ∧ ((blink_task_step s f).1).rtc = s.rtc
    ∧ ((on_event e s).rtc = s.rtc
        ∨ ∃ d, s.state = State.SettingTime d
            ∧ e = Event.AdjustButton ButtonPress.Short
            ∧ on_event e s = advance_time d s) := by
  refine ⟨rfl, rfl, rfl, rfl, ?_, ?_⟩
  · rcases s with ⟨st, t, b, r, sig⟩
    rcases st <;> simp [blink_task_step]
  · rcases s with ⟨st, t, b, r, sig⟩
    rcases e with p | p <;> rcases p <;> rcases st with _ | d <;>
      simp [on_event, to_state, adjust_brightness]
    · split <;> simp

/-- C9: an Adjust-Short edit in SettingTime mode dispatches to
advance_time, whose result is computed from a fresh read of the
persistent clock and does not depend on the in-memory shared time; the
edit overwrites year, month and weekday of both the persistent clock and
the in-memory time with the fixed defaults 0, 1 and 0, and preserves the
day field read from the persistent clock. -/
theorem c9_edit_from_rtc_defaults (s : Sys) (d : Nat) (t : DateTime)
    (hst : s.state = State.SettingTime d) :
    on_event (Event.AdjustButton ButtonPress.Short) s = advance_time d s
    ∧ (advance_time d { s with time := t }).time = (advance_time d s).time
    ∧ (advance_time d s).rtc = (advance_time d s).time
    ∧ (advance_time d s).time.year = 0
    ∧ (advance_time d s).time.month = 1
    ∧ (advance_time d s).time.weekday = 0
    ∧ (advance_time d s).time.day = s.rtc.day := by
  refine ⟨by simp [on_event, hst], ?_, ?_, ?_, ?_, ?_, ?_⟩ <;>
    rcases s with ⟨st, ti, b, r, sig⟩ <;>
      rcases r with ⟨ry, rmo, rw, rd, rh, rm, rs⟩ <;>
        simp [advance_time, edited_datetime, default_datetime] <;>
          split_ifs <;> simp

theorem c9_edit_from_rtc_defaults_witness :
    (advance_time 0
        ⟨State.SettingTime 0, default_datetime, 3,
          ⟨7, 8, 9, 5, 13, 30, 45⟩, none⟩).time.day = 5 :=
  (c9_edit_from_rtc_defaults
    ⟨State.SettingTime 0, default_datetime, 3, ⟨7, 8, 9, 5, 13, 30, 45⟩, none⟩
    0 default_datetime rfl).2.2.2.2.2.2

/-- C5 as stated is false on the code: the render match is on
(frame, position, digit index) and both highlight arms require frame 0,
so with position 1 and frame 1 digit 0 is drawn at the normal brightness
0x40 and not highlighted, while with position 1 and frame 0 digit 0 is
drawn at the highlight intensity 0x02 although the claim calls that
combination normal. -/
theorem c5_counterexample :
    digit_color (some ⟨1, 1⟩) 0x40 0 = 0x40
    ∧ digit_color (some ⟨1, 1⟩) 0x40 0 ≠ 0x02
    ∧ digit_color (some ⟨1, 0⟩) 0x40 0 = 0x02 := by
  decide

/-- C5 amended: with a latched Blink(position, frame) request, digits
2-3 are drawn at the fixed highlight intensity 0x02 exactly when
position = 0 and frame = 0, and digits 0-1 at 0x02 exactly when
position = 1 and frame = 0; every other combination, and the absence of
a latched blink, draws the digit at the normal brightness intensity. -/
theorem c5_blink_highlight (bd : BlinkData) (b i : Nat) :
    digit_color none b i = b
    ∧ digit_color (some bd) b i
      = (if (bd.frame = 0 ∧ bd.position = 0 ∧ (i = 2 ∨ i = 3))
            ∨ (bd.frame = 0 ∧ bd.position = 1 ∧ (i = 0 ∨ i = 1))
         then 0x02 else b) := by
  refine ⟨rfl, ?_⟩
  simp only [digit_color]
  split_ifs <;> omega

/-- C7: the refresh channel is a single-slot last-writer-wins latch: a
newly raised request overwrites a still-unconsumed one, raising Normal
twice leaves the same single latched value as raising it once, the one
render pass that consumes it leaves the latch empty with no blink
memory, and a wait on the empty latch only times out. -/
theorem c7_latch_last_writer_wins (l : Option ScreenRefresh)
    (r1 r2 : ScreenRefresh) (bk : Option BlinkData) :
    signal_raise r2 (signal_raise r1 l) = some r2
    ∧ signal_raise ScreenRefresh.Normal (signal_raise ScreenRefresh.Normal l)
        = signal_raise ScreenRefresh.Normal l
    ∧ screen_wait
        (signal_raise ScreenRefresh.Normal (signal_raise ScreenRefresh.Normal l))
        bk = (none, none)
    ∧ screen_wait none bk = (none, none) := by
  exact ⟨rfl, rfl, rfl, rfl⟩

/-- C8: with the hold time of each confirmed press abstracted to its
duration in milliseconds, the button task emits exactly one event per
press, and a press held beyond the 3000 ms threshold yields a Long event
and never a Short one, the classification being Long exactly when the
hold exceeds the threshold. -/
theorem c8_long_press_once (holds : List Nat) (i : Nat) (hold : Nat)
    (h : 3000 < holds.getD i 0) :
    (button_task_events holds).length = holds.length
    ∧ (button_task_events holds)[i]? = some ButtonPress.Long
    ∧ (classify_press hold = ButtonPress.Long ↔ 3000 < hold) := by
  have hlen : ∀ l : List Nat, (button_task_events l).length = l.length := by
    intro l
    induction l with
    | nil => rfl
    | cons a tl ih => simp [button_task_events, ih]
  refine ⟨hlen holds, ?_, ?_⟩
  · induction holds generalizing i with
    | nil => simp [List.getD] at h
    | cons a tl ih =>
        rcases i with _ | j
        · simp only [List.getD_cons_zero] at h
          simp [button_task_events, classify_press, Nat.not_le.mpr h,
            Nat.not_le_of_lt h]
        · simp only [List.getD_cons_succ] at h
          simpa [button_task_events] using ih j h
  · constructor
    · intro hc
      by_contra hn
      push_neg at hn
      simp [classify_press, hn] at hc
    · intro hc
      simp [classify_press, Nat.not_le.mpr hc]

theorem c8_long_press_once_witness :
    (button_task_events [5000]).length = 1
    ∧ (button_task_events [5000])[0]? = some ButtonPress.Long :=
  ⟨(c8_long_press_once [5000] 0 5000 (by decide)).1,
   (c8_long_press_once [5000] 0 5000 (by decide)).2.1⟩

/-- C6: under the time-of-day invariant, one Time Ticker step increments
seconds, cascades seconds into minutes, minutes into hours, and hours
into the day field, touches no other calendar field, and preserves the
invariant; the other in-core writers of the shared time (the RTC sync
overwrite and the dispatcher's edit) also leave it satisfying the
invariant whenever the persistent clock satisfies it. -/
theorem c6_tick_invariant (t : DateTime) (h : validTime t) (s : Sys)
    (hr : validTime s.rtc) (d : Nat) :
    validTime (run_time_tick t)
    ∧ (run_time_step { s with time := t }).time = run_time_tick t
    ∧ (t.seconds + 1 < 60 →
        run_time_tick t = { t with seconds := t.seconds + 1 })
    ∧ (t.seconds + 1 = 60 → t.minutes + 1 < 60 →
        run_time_tick t = { t with seconds := 0, minutes := t.minutes + 1 })
    ∧ (t.seconds + 1 = 60 → t.minutes + 1 = 60 → t.hours + 1 < 24 →
        run_time_tick t
          = { t with seconds := 0, minutes := 0, hours := t.hours + 1 })
    ∧ (t.seconds + 1 = 60 → t.minutes + 1 = 60 → t.hours + 1 = 24 →
        run_time_tick t
          = { t with seconds := 0, minutes := 0, hours := 0,
                     day := (t.day + 1) % 256 })
    ∧ (run_time_tick t).month = t.month
    ∧ (run_time_tick t).year = t.year
    ∧ (run_time_tick t).weekday = t.weekday
    ∧ validTime ((sync_time_step s).time)
    ∧ validTime ((advance_time d s).time) := by
  rcases t with ⟨y, mo, wd, dy, hrs, mins, secs⟩
  have hv : hrs < 24 ∧ mins < 60 ∧ secs < 60 := h
  obtain ⟨h1, h2, h3⟩ := hv
  have hmod : (secs + 1) % 256 = secs + 1 := Nat.mod_eq_of_lt (by omega)
  have hmod2 : (mins + 1) % 256 = mins + 1 := Nat.mod_eq_of_lt (by omega)
  have hmod3 : (hrs + 1) % 256 = hrs + 1 := Nat.mod_eq_of_lt (by omega)
  have key : run_time_tick ⟨y, mo, wd, dy, hrs, mins, secs⟩
      = if secs + 1 < 60 then ⟨y, mo, wd, dy, hrs, mins, secs + 1⟩
        else if mins + 1 < 60 then ⟨y, mo, wd, dy, hrs, mins + 1, 0⟩
        else if hrs + 1 < 24 then ⟨y, mo, wd, dy, hrs + 1, 0, 0⟩
        else ⟨y, mo, wd, (dy + 1) % 256, 0, 0, 0⟩ := by
    by_cases c1 : secs + 1 < 60
    · simp [run_time_tick, hmod, Nat.not_le.mpr c1, Nat.not_le.mpr h2,
        Nat.not_le.mpr h1, c1]
    · by_cases c2 : mins + 1 < 60
      · simp [run_time_tick, hmod, hmod2, show 60 ≤ secs + 1 by omega,
          Nat.not_le.mpr c2, Nat.not_le.mpr h1, c1, c2]
      · by_cases c3 : hrs + 1 < 24
        · simp [run_time_tick, hmod, hmod2, hmod3,
            show 60 ≤ secs + 1 by omega, show 60 ≤ mins + 1 by omega,
            Nat.not_le.mpr c3, c1, c2, c3]
        · simp [run_time_tick, hmod, hmod2, hmod3,
            show 60 ≤ secs + 1 by omega, show 60 ≤ mins + 1 by omega,
            show 24 ≤ hrs + 1 by omega, c1, c2, c3]
  refine ⟨?_, rfl, ?_, ?_, ?_, ?_, ?_, ?_, ?_, ?_, ?_⟩
  · rw [key]
    split_ifs <;> refine ⟨?_, ?_, ?_⟩ <;> (dsimp only; omega)
  · intro hc1
    dsimp only at hc1
    rw [key, if_pos hc1]
  · intro hc1 hc2
    dsimp only at hc1 hc2
    rw [key, if_neg (by omega), if_pos hc2]
  · intro hc1 hc2 hc3
    dsimp only at hc1 hc2 hc3
    rw [key, if_neg (by omega), if_neg (by omega), if_pos hc3]
  · intro hc1 hc2 hc3
    dsimp only at hc1 hc2 hc3
    rw [key, if_neg (by omega), if_neg (by omega), if_neg (by omega)]
  · rw [key]; split_ifs <;> rfl
  · rw [key]; split_ifs <;> rfl
  · rw [key]; split_ifs <;> rfl
  · exact hr
  · rcases s with ⟨st, ti, b, r, sig⟩
    rcases r with ⟨ry, rmo, rw2, rd, rh, rm, rs⟩
    have hr3 : rh < 24 ∧ rm < 60 ∧ rs < 60 := hr
    simp only [advance_time, edited_datetime, default_datetime]
    split_ifs <;> refine ⟨?_, ?_, ?_⟩ <;> (dsimp only; omega)

theorem c6_tick_invariant_witness :
    validTime (run_time_tick ⟨0, 1, 0, 28, 23, 59, 59⟩)
    ∧ run_time_tick ⟨0, 1, 0, 28, 23, 59, 59⟩
        = { (⟨0, 1, 0, 28, 23, 59, 59⟩ : DateTime) with
            seconds := 0, minutes := 0, hours := 0, day := (28 + 1) % 256 } :=
  ⟨(c6_tick_invariant ⟨0, 1, 0, 28, 23, 59, 59⟩ ⟨by decide, by decide, by decide⟩
      (init_sys default_datetime) ⟨by decide, by decide, by decide⟩ 0).1,
   (c6_tick_invariant ⟨0, 1, 0, 28, 23, 59, 59⟩ ⟨by decide, by decide, by decide⟩
      (init_sys default_datetime) ⟨by decide, by decide, by decide⟩ 0).2.2.2.2.2.1
      (by decide) (by decide) (by decide)⟩

theorem draw_symbol_digit_isSome (sub : Nat) (d : Nat) (hs : sub < 4)
    (hd : d < 10) : (draw_symbol sub d).isSome := by
  have hlen : DIGITS.length = 10 := rfl
  simp only [draw_symbol, if_pos hs]
  rw [List.getElem?_eq_getElem (by omega)]
  rfl

/-- C10: whenever the shared time satisfies hours below 24 and minutes
below 60, every one of the four computed digit values is at most 9,
every tile index used by the render pass is below 4, and the whole
render pass succeeds: the digit-table lookup and the tile-index
assertion inside draw_symbol cannot fail. -/
theorem c10_render_never_fails (t : DateTime) (hh : t.hours < 24)
    (hm : t.minutes < 60) :
    (∀ d ∈ screen_digits t, d ≤ 9)
    ∧ (∀ i, i < (screen_digits t).length → i < 4)
    ∧ (screen_render t).isSome := by
  have d0 : t.hours / 10 < 10 := by omega
  have d1 : t.hours % 10 < 10 := by omega
  have d2 : t.minutes / 10 < 10 := by omega
  have d3 : t.minutes % 10 < 10 := by omega
  refine ⟨?_, ?_, ?_⟩
  · intro d hd
    simp only [screen_digits, List.mem_cons, List.not_mem_nil, or_false] at hd
    rcases hd with rfl | rfl | rfl | rfl <;> omega
  · intro i hi
    simpa [screen_digits] using hi
  · obtain ⟨a0, h0⟩ :=
      Option.isSome_iff_exists.mp (draw_symbol_digit_isSome 0 _ (by omega) d0)
    obtain ⟨a1, h1⟩ :=
      Option.isSome_iff_exists.mp (draw_symbol_digit_isSome 1 _ (by omega) d1)
    obtain ⟨a2, h2⟩ :=
      Option.isSome_iff_exists.mp (draw_symbol_digit_isSome 2 _ (by omega) d2)
    obtain ⟨a3, h3⟩ :=
      Option.isSome_iff_exists.mp (draw_symbol_digit_isSome 3 _ (by omega) d3)
    simp [screen_render, h0, h1, h2, h3]

theorem c10_render_never_fails_witness :
    (∀ d ∈ screen_digits ⟨0, 1, 0, 1, 23, 59, 7⟩, d ≤ 9)
    ∧ (screen_render ⟨0, 1, 0, 1, 23, 59, 7⟩).isSome :=
  ⟨(c10_render_never_fails ⟨0, 1, 0, 1, 23, 59, 7⟩ (by decide) (by decide)).1,
   (c10_render_never_fails ⟨0, 1, 0, 1, 23, 59, 7⟩ (by decide) (by decide)).2.2⟩
